import Mathlib

/-!
CRD watcher (pkg/client/crd_watcher.go).

A shallow embedding of the watch-to-callback pipeline of the CRD watcher.

* Objects handed around as Go interface values become the type `Object`.
* The work queue, the logger and the informer are collaborators that live
  outside the package; every call made on them is recorded, in program order,
  as an `Event` of a trace.  What `queue.Get`, `indexer.GetByKey`,
  `informer.HasSynced` and the stop channel answer is an input of the model.
* A callback is a Go function without a result; it acts on state owned by the
  collaborator that registered it.  That state is the type parameter `σ`.  A
  call of a callback either returns or panics (the nil func value panics when
  called); the package has no `recover`, so a panic unwinds through
  `processCRD`, `processNextItem` (whose deferred `Done` still runs) and
  `runWorker`.
* The read-write mutex is not represented: each operation is one atomic step.
-/

namespace Client

/-! ## Data model -/

/-- One entry of `Spec.Versions`. -/
structure CustomResourceDefinitionVersion where
  Name : String
deriving DecidableEq, Repr

/-- The part of `Spec.Names` the package reads. -/
structure CustomResourceDefinitionNames where
  Plural : String
deriving DecidableEq, Repr

/-- The part of `Spec` the package reads. -/
structure CustomResourceDefinitionSpec where
  Group : String
  Names : CustomResourceDefinitionNames
  Versions : List CustomResourceDefinitionVersion
deriving DecidableEq, Repr

/-- The fields of `v1.CustomResourceDefinition` the package reads. -/
structure CustomResourceDefinition where
  Name : String
  ResourceVersion : String
  Spec : CustomResourceDefinitionSpec
deriving DecidableEq, Repr

/-- A Go interface value as delivered by the informer or stored in its cache:
either a (non-nil) pointer to a resource definition, or a value of any other
dynamic type (the nil interface included), of which only the type name is kept. -/
inductive Object where
  | crd (c : CustomResourceDefinition)
  | other (dynType : String)
deriving DecidableEq, Repr

/-- The type assertion `obj.(*v1.CustomResourceDefinition)`: the pointer when the
dynamic type matches (`ok = true`), nothing otherwise. -/
def Object.asCRD : Object → Option CustomResourceDefinition
  | .crd c => some c
  | .other _ => none

/-- Result of `schema.GroupVersionResource`. -/
structure GroupVersionResource where
  Group : String
  Version : String
  Resource : String
deriving DecidableEq, Repr

/-- How a call of a callback ends: it returns or it panics.  Either way the
state it left to its collaborator is kept. -/
inductive CallResult (σ : Type) where
  | returns (s : σ)
  | panics (s : σ)

/-- The state a call left behind. -/
def CallResult.state {σ : Type} : CallResult σ → σ
  | .returns s => s
  | .panics s => s

/-- The type `CRDCallback`: `func(crd *v1.CustomResourceDefinition)`.  It has no
result; its effect is on the state `σ` of the collaborator that owns it, and
the call may panic. -/
abbrev CRDCallback (σ : Type) := CustomResourceDefinition → σ → CallResult σ

/-- The nil func value, which `RegisterCallback` accepts like any other: calling
it panics at once. -/
def nilCallback {σ : Type} : CRDCallback σ :=
  fun _ s => .panics s

/-- How a method ends: it returns a value, or a panic leaves it. -/
inductive Exit (α : Type) where
  | returned (value : α)
  | panicked
deriving DecidableEq, Repr

/-- The three results of `GetIndexer().GetByKey(key)`: `(item, exists, err)`,
where `err = none` is the nil error. -/
structure GetByKeyResult where
  item : Object
  found : Bool
  err : Option String
deriving DecidableEq, Repr

/-- Calls on the rate limiting work queue. -/
inductive QueueOp where
  | Add (key : String)
  | Get
  | Done (key : String)
  | Forget (key : String)
  | AddRateLimited (key : String)
  | ShutDown
deriving DecidableEq, Repr

/-- Logger calls: `Info`, `V(1).Info` and `Error`. -/
inductive LogLevel where
  | info
  | v1info
  | error
deriving DecidableEq, Repr

/-- Everything the watcher does to its collaborators, in program order. -/
inductive Event (σ : Type) where
  | log (level : LogLevel) (msg : String) (keysAndValues : List String)
  | queue (op : QueueOp)
  | call (callback : CRDCallback σ) (crd : CustomResourceDefinition)
  | newSharedIndexInformer (labelSelector : String)
  | addEventHandler
  | goInformerRun
  | waitForCacheSync
  | goRunWorker
  | closeStopCh

/-- The watcher state the dispatch path reads: the informer cache as seen through
`GetByKey`, and the callback map (a Go map: at most one value per key). -/
structure CRDWatcher (σ : Type) where
  indexer : String → GetByKeyResult
  callbacks : String → Option (CRDCallback σ)

/-- Outcome of running a method: how it ended, the calls it made on its
collaborators, and the collaborator state the callbacks left behind. -/
structure Run (σ α : Type) where
  result : Exit α
  trace : List (Event σ)
  state : σ

/-- The queue calls of a trace, in order. -/
def queueOps {σ : Type} : List (Event σ) → List QueueOp
  | [] => []
  | .queue op :: rest => op :: queueOps rest
  | _ :: rest => queueOps rest

/-- The callback invocations of a trace, in order, with their arguments. -/
def calls {σ : Type} : List (Event σ) → List (CRDCallback σ × CustomResourceDefinition)
  | [] => []
  | .call h c :: rest => (h, c) :: calls rest
  | _ :: rest => calls rest

/-- The messages logged through `log.Error`, in order. -/
def errorLogs {σ : Type} : List (Event σ) → List String
  | [] => []
  | .log .error msg _ :: rest => msg :: errorLogs rest
  | _ :: rest => errorLogs rest

/-! ## Callback registry -/

/-- Method `RegisterCallback`: `w.callbacks[crdName] = callback`. -/
def RegisterCallback {σ : Type} (w : CRDWatcher σ) (crdName : String)
    (callback : CRDCallback σ) : CRDWatcher σ × List (Event σ) :=
  ({ w with callbacks := fun k => if k = crdName then some callback else w.callbacks k },
   [.log .v1info "Registering callback for CRD" ["crdName", crdName]])

/-- Method `UnregisterCallback`: `delete(w.callbacks, crdName)`. -/
def UnregisterCallback {σ : Type} (w : CRDWatcher σ) (crdName : String) :
    CRDWatcher σ × List (Event σ) :=
  ({ w with callbacks := fun k => if k = crdName then none else w.callbacks k },
   [.log .v1info "Unregistering callback for CRD" ["crdName", crdName]])

/-! ## Dedup filter -/

/-- Method `handleUpdate`: the informer's `UpdateFunc`. -/
def handleUpdate {σ : Type} (oldObj newObj : Object) : List (Event σ) :=
  match oldObj.asCRD with
  | none => [.log .error "Failed to cast old object to CRD" []]
  | some oldCRD =>
    match newObj.asCRD with
    | none => [.log .error "Failed to cast new object to CRD" []]
    | some newCRD =>
      if oldCRD.ResourceVersion = newCRD.ResourceVersion then []
      else
        [.log .v1info "CRD updated"
            ["name", newCRD.Name, "oldResourceVersion", oldCRD.ResourceVersion,
             "newResourceVersion", newCRD.ResourceVersion],
         .queue (.Add newCRD.Name)]

/-! ## Dispatch worker -/

/-- Method `processCRD`; the value returned is the Go error (`none` is nil).  A
panic of the callback is not recovered. -/
def processCRD {σ : Type} (w : CRDWatcher σ) (crdName : String) (s : σ) :
    Run σ (Option String) :=
  let r := w.indexer crdName
  match r.err with
  | some err => ⟨.returned (some ("error getting CRD from cache: " ++ err)), [], s⟩
  | none =>
    if !r.found then
      ⟨.returned none, [.log .v1info "CRD no longer exists" ["name", crdName]], s⟩
    else
      match r.item.asCRD with
      | none => ⟨.returned (some "error casting object to CRD"), [], s⟩
      | some crd =>
        match w.callbacks crdName with
        | some callback =>
          match callback crd s with
          | .returns s2 =>
            ⟨.returned none,
             [.log .v1info "Calling callback for CRD" ["name", crdName], .call callback crd],
             s2⟩
          | .panics s2 =>
            ⟨.panicked,
             [.log .v1info "Calling callback for CRD" ["name", crdName], .call callback crd],
             s2⟩
        | none => ⟨.returned none, [], s⟩

/-- Method `processNextItem`.  The argument `get` is what `w.queue.Get()` answers:
the key and the shutdown flag.  The deferred `Done(key)` runs last, also when a
panic unwinds through the method. -/
def processNextItem {σ : Type} (w : CRDWatcher σ) (get : String × Bool) (s : σ) :
    Run σ Bool :=
  if get.2 then ⟨.returned false, [.queue .Get], s⟩
  else
    let key := get.1
    let r := processCRD w key s
    match r.result with
    | .panicked => ⟨.panicked, [.queue .Get] ++ r.trace ++ [.queue (.Done key)], r.state⟩
    | .returned (some err) =>
      ⟨.returned true,
       [.queue .Get] ++ r.trace ++
         [.log .error "Error processing CRD" [err, "name", key],
          .queue (.AddRateLimited key), .queue (.Done key)],
       r.state⟩
    | .returned none =>
      ⟨.returned true,
       [.queue .Get] ++ r.trace ++ [.queue (.Forget key), .queue (.Done key)], r.state⟩

/-- Method `runWorker`: `for w.processNextItem(ctx) {}`.  Each element of the
list is one iteration as the worker sees it: the watcher state at that moment
(other goroutines may have changed the cache and the registry since the last
one) and the answer of `Get`.  When the list is used up the worker is blocked in
`Get` and the loop has not ended: the result is `none`.  The loop ends when an
iteration returns false, or when a panic leaves it. -/
def runWorker {σ : Type} : List (CRDWatcher σ × (String × Bool)) → σ → Option (Run σ Unit)
  | [], _ => none
  | (w, get) :: rest, s =>
    let r := processNextItem w get s
    match r.result with
    | .panicked => some ⟨.panicked, r.trace, r.state⟩
    | .returned true =>
      (runWorker rest r.state).map fun r2 => ⟨r2.result, r.trace ++ r2.trace, r2.state⟩
    | .returned false => some ⟨.returned (), r.trace, r.state⟩

/-! ## Resource coordinate -/

/-- Function `GetGVRFromCRD`.  `crd.Spec.Versions[0]` is an index expression: on
an empty slice there is no value (the Go runtime panics), modelled as `none`. -/
def GetGVRFromCRD (crd : CustomResourceDefinition) : Option GroupVersionResource :=
  match crd.Spec.Versions[0]? with
  | none => none
  | some v =>
    let version := v.Name
    some { Group := crd.Spec.Group, Version := version, Resource := crd.Spec.Names.Plural }

/-! ## Lifecycle -/

/-- What the informer and the stop channel look like at the successive polls of
`cache.WaitForCacheSync`: whether `informer.HasSynced()` answers true, and whether
`w.stopCh` has been closed. -/
structure SyncEnv where
  hasSynced : Nat → Bool
  stopClosed : Nat → Bool

/-- The call `cache.WaitForCacheSync(w.stopCh, w.informer.HasSynced)` of client-go,
a `wait.PollImmediateUntil`: `HasSynced` is polled at once, and then at every
tick unless the stop channel is found closed first.  It answers true once
`HasSynced` holds at a poll, false once the stop channel is closed; it is given
no other bound.  `fuel` bounds the polls of the model, `t` is the current poll
(`0` is the immediate one); `none` means it is still waiting. -/
def WaitForCacheSync (env : SyncEnv) : Nat → Nat → Option Bool
  | 0, _ => none
  | fuel + 1, t =>
    if t = 0 then
      if env.hasSynced t then some true
      else if env.stopClosed t then some false
      else WaitForCacheSync env fuel (t + 1)
    else
      if env.stopClosed t then some false
      else if env.hasSynced t then some true
      else WaitForCacheSync env fuel (t + 1)

/-- Method `Start`.  `ownedLabel` is `metadata.OwnedLabel`, a constant of another
package.  `none` means `Start` has not returned within `fuel` polls. -/
def Start {σ : Type} (ownedLabel : String) (env : SyncEnv) (fuel : Nat) :
    Option (Option String × List (Event σ)) :=
  let labelSelector := ownedLabel ++ "=true"
  let pre : List (Event σ) :=
    [.log .info "Starting CRD watcher" [], .newSharedIndexInformer labelSelector,
     .addEventHandler, .goInformerRun, .waitForCacheSync]
  match WaitForCacheSync env fuel 0 with
  | none => none
  | some false => some (some "failed to sync CRD informer cache", pre)
  | some true =>
    some (none, pre ++ [.goRunWorker, .log .info "CRD watcher started successfully" []])

/-- Method `Stop`. -/
def Stop {σ : Type} : List (Event σ) :=
  [.log .info "Stopping CRD watcher" [], .closeStopCh, .queue .ShutDown]

/-- The number of times a trace launches the worker goroutine. -/
def workerStarts {σ : Type} : List (Event σ) → Nat
  | [] => 0
  | .goRunWorker :: rest => workerStarts rest + 1
  | _ :: rest => workerStarts rest

/-! ## Fixtures used by the concrete examples -/

/-- A resource definition named `widget-crd` at a given version token. -/
def widget (resourceVersion : String) : CustomResourceDefinition :=
  { Name := "widget-crd", ResourceVersion := resourceVersion,
    Spec := { Group := "example.com", Names := { Plural := "widgets" },
              Versions := [{ Name := "v1alpha1" }, { Name := "v1" }] } }

/-- A callback whose collaborator keeps the list of versions it was shown. -/
def recordVersion : CRDCallback (List String) :=
  fun crd seen => .returns (seen ++ [crd.ResourceVersion])

/-- A callback whose reconciliation fails.  `CRDCallback` has no result, so the
only way it can make the failure known to its caller is to panic; its
collaborator keeps a note of the failure. -/
def failingReconcile : CRDCallback (List String) :=
  fun crd errs => .panics (errs ++ ["reconcile failed: " ++ crd.Name])

/-- A callback that does nothing and returns. -/
def quietCallback : CRDCallback (List String) :=
  fun _ seen => .returns seen


/-- A cache that holds one object under `widget-crd` and nothing else. -/
def cacheWith (obj : Object) : String → GetByKeyResult :=
  fun k => if k = "widget-crd" then ⟨obj, true, none⟩ else ⟨.other "nil", false, none⟩

/-- A cache that holds nothing. -/
def emptyCache : String → GetByKeyResult :=
  fun _ => ⟨.other "nil", false, none⟩

/-- A registry with no entry. -/
def noCallbacks {σ : Type} : String → Option (CRDCallback σ) :=
  fun _ => none

/-- A store that never completes its initial sync, with a stop channel that is
never closed. -/
def neverSynced : SyncEnv :=
  { hasSynced := fun _ => false, stopClosed := fun _ => false }

/-- A store that never completes its initial sync; `Stop` closes the stop
channel before the third poll. -/
def stoppedAtTwo : SyncEnv :=
  { hasSynced := fun _ => false, stopClosed := fun t => decide (2 ≤ t) }

/-- Every callback of the registry returns, on every object and state. -/
def callbacksReturn {σ : Type} (w : CRDWatcher σ) : Prop :=
  ∀ k h o s, w.callbacks k = some h → ∃ s2, h o s = .returns s2

/-! ## Lemmas on traces -/

theorem queueOps_append {σ : Type} (xs ys : List (Event σ)) :
    queueOps (xs ++ ys) = queueOps xs ++ queueOps ys := by
  induction xs with
  | nil => rfl
  | cons x xs ih => cases x <;> simp [queueOps, ih]

theorem calls_append {σ : Type} (xs ys : List (Event σ)) :
    calls (xs ++ ys) = calls xs ++ calls ys := by
  induction xs with
  | nil => rfl
  | cons x xs ih => cases x <;> simp [calls, ih]

theorem errorLogs_append {σ : Type} (xs ys : List (Event σ)) :
    errorLogs (xs ++ ys) = errorLogs xs ++ errorLogs ys := by
  induction xs with
  | nil => rfl
  | cons x xs ih =>
    cases x with
    | log level msg kv => cases level <;> simp [errorLogs, ih]
    | _ => simp [errorLogs, ih]

/-- The results `processCRD` can have, by the state it finds: the cache lookup
error, the absent key, the object of another type, the missing callback, and
the callback that returns or panics. -/
theorem processCRD_cases {σ : Type} (w : CRDWatcher σ) (k : String) (s : σ) :
    (∃ e, (w.indexer k).err = some e ∧
      processCRD w k s = ⟨.returned (some ("error getting CRD from cache: " ++ e)), [], s⟩) ∨
    ((w.indexer k).err = none ∧ (w.indexer k).found = false ∧
      processCRD w k s
        = ⟨.returned none, [.log .v1info "CRD no longer exists" ["name", k]], s⟩) ∨
    ((w.indexer k).err = none ∧ (w.indexer k).found = true ∧
      (w.indexer k).item.asCRD = none ∧
      processCRD w k s = ⟨.returned (some "error casting object to CRD"), [], s⟩) ∨
    (∃ o, (w.indexer k).err = none ∧ (w.indexer k).found = true ∧
      (w.indexer k).item.asCRD = some o ∧ w.callbacks k = none ∧
      processCRD w k s = ⟨.returned none, [], s⟩) ∨
    (∃ o h s2, (w.indexer k).err = none ∧ (w.indexer k).found = true ∧
      (w.indexer k).item.asCRD = some o ∧ w.callbacks k = some h ∧ h o s = .returns s2 ∧
      processCRD w k s
        = ⟨.returned none,
           [.log .v1info "Calling callback for CRD" ["name", k], .call h o], s2⟩) ∨
    (∃ o h s2, (w.indexer k).err = none ∧ (w.indexer k).found = true ∧
      (w.indexer k).item.asCRD = some o ∧ w.callbacks k = some h ∧ h o s = .panics s2 ∧
      processCRD w k s
        = ⟨.panicked,
           [.log .v1info "Calling callback for CRD" ["name", k], .call h o], s2⟩) := by
  cases he : (w.indexer k).err with
  | some e => exact Or.inl ⟨e, rfl, by simp [processCRD, he]⟩
  | none =>
    cases hf : (w.indexer k).found with
    | false => exact Or.inr (Or.inl ⟨rfl, rfl, by simp [processCRD, he, hf]⟩)
    | true =>
      cases hi : (w.indexer k).item.asCRD with
      | none => exact Or.inr (Or.inr (Or.inl ⟨rfl, rfl, rfl, by simp [processCRD, he, hf, hi]⟩))
      | some o =>
        cases hc : w.callbacks k with
        | none =>
          exact Or.inr (Or.inr (Or.inr (Or.inl
            ⟨o, rfl, rfl, rfl, rfl, by simp [processCRD, he, hf, hi, hc]⟩)))
        | some h =>
          cases hh : h o s with
          | returns s2 =>
            exact Or.inr (Or.inr (Or.inr (Or.inr (Or.inl
              ⟨o, h, s2, rfl, rfl, rfl, rfl, hh, by simp [processCRD, he, hf, hi, hc, hh]⟩))))
          | panics s2 =>
            exact Or.inr (Or.inr (Or.inr (Or.inr (Or.inr
              ⟨o, h, s2, rfl, rfl, rfl, rfl, hh, by simp [processCRD, he, hf, hi, hc, hh]⟩))))

/-- The dispatch of one key makes no call on the queue. -/
theorem queueOps_processCRD {σ : Type} (w : CRDWatcher σ) (k : String) (s : σ) :
    queueOps (processCRD w k s).trace = [] := by
  rcases processCRD_cases w k s with ⟨e, _, h⟩ | ⟨_, _, h⟩ | ⟨_, _, _, h⟩ |
    ⟨o, _, _, _, _, h⟩ | ⟨o, f, s2, _, _, _, _, _, h⟩ | ⟨o, f, s2, _, _, _, _, _, h⟩ <;>
    rw [h] <;> rfl

/-- The dispatch of one key logs nothing at error level. -/
theorem errorLogs_processCRD {σ : Type} (w : CRDWatcher σ) (k : String) (s : σ) :
    errorLogs (processCRD w k s).trace = [] := by
  rcases processCRD_cases w k s with ⟨e, _, h⟩ | ⟨_, _, h⟩ | ⟨_, _, _, h⟩ |
    ⟨o, _, _, _, _, h⟩ | ⟨o, f, s2, _, _, _, _, _, h⟩ | ⟨o, f, s2, _, _, _, _, _, h⟩ <;>
    rw [h] <;> rfl

/-- When the cache holds a resource definition and a callback is registered,
the dispatch is one call of that callback on that object; it ends as the call
ends. -/
theorem processCRD_hit {σ : Type} (w : CRDWatcher σ) (k : String)
    (o : CustomResourceDefinition) (h : CRDCallback σ) (s : σ)
    (hc : w.indexer k = ⟨.crd o, true, none⟩) (hr : w.callbacks k = some h) :
    (processCRD w k s).trace
      = [.log .v1info "Calling callback for CRD" ["name", k], .call h o] ∧
    (processCRD w k s).state = (h o s).state ∧
    (processCRD w k s).result
      = (match h o s with
         | .returns _ => Exit.returned none
         | .panics _ => Exit.panicked) := by
  cases hh : h o s <;> simp [processCRD, hc, hr, hh, Object.asCRD, CallResult.state]

/-- When the cache holds a resource definition and no callback is registered,
the dispatch does nothing. -/
theorem processCRD_unregistered {σ : Type} (w : CRDWatcher σ) (k : String)
    (o : CustomResourceDefinition) (s : σ)
    (hc : w.indexer k = ⟨.crd o, true, none⟩) (hr : w.callbacks k = none) :
    processCRD w k s = ⟨.returned none, [], s⟩ := by
  simp [processCRD, hc, hr, Object.asCRD]

/-- When the key is absent from the cache the dispatch only logs that. -/
theorem processCRD_absent {σ : Type} (w : CRDWatcher σ) (k : String) (s : σ)
    (habs : (w.indexer k).found = false) (herr : (w.indexer k).err = none) :
    processCRD w k s
      = ⟨.returned none, [.log .v1info "CRD no longer exists" ["name", k]], s⟩ := by
  simp [processCRD, habs, herr]

/-- Every callback a dispatch invokes is the one registered under the key. -/
theorem calls_processCRD_registered {σ : Type} (w : CRDWatcher σ) (k : String) (s : σ) :
    ∀ p ∈ calls (processCRD w k s).trace, w.callbacks k = some p.1 := by
  rcases processCRD_cases w k s with ⟨e, _, h⟩ | ⟨_, _, h⟩ | ⟨_, _, _, h⟩ |
    ⟨o, _, _, _, _, h⟩ | ⟨o, f, s2, _, _, _, hc, _, h⟩ | ⟨o, f, s2, _, _, _, hc, _, h⟩
  · rw [h]; simp [calls]
  · rw [h]; simp [calls]
  · rw [h]; simp [calls]
  · rw [h]; simp [calls]
  · rw [h]; simp [calls, hc]
  · rw [h]; simp [calls, hc]

/-! ## Dedup filter: `handleUpdate` -/

/-- C1: for every pair of objects passed to `handleUpdate`, the queue receives an
`Add` iff both are resource definitions whose version tokens differ; then the
queue calls are exactly one `Add` of the name of the new object, and in every
other case (equal tokens, or an object of another shape) no queue call is made. -/
theorem handleUpdate_add_iff_version_differs {σ : Type} (oldObj newObj : Object) :
    ((∃ k, QueueOp.Add k ∈ queueOps (@handleUpdate σ oldObj newObj)) ↔
      ∃ o n, oldObj = .crd o ∧ newObj = .crd n ∧ o.ResourceVersion ≠ n.ResourceVersion) ∧
    (∀ o n, oldObj = .crd o → newObj = .crd n → o.ResourceVersion ≠ n.ResourceVersion →
      queueOps (@handleUpdate σ oldObj newObj) = [QueueOp.Add n.Name]) ∧
    ((¬ ∃ o n, oldObj = .crd o ∧ newObj = .crd n ∧ o.ResourceVersion ≠ n.ResourceVersion) →
      queueOps (@handleUpdate σ oldObj newObj) = []) := by
  cases oldObj with
  | other t => simp [handleUpdate, Object.asCRD, queueOps]
  | crd o =>
    cases newObj with
    | other t => simp [handleUpdate, Object.asCRD, queueOps]
    | crd n =>
      by_cases hv : o.ResourceVersion = n.ResourceVersion
      · simp [handleUpdate, Object.asCRD, queueOps, hv]
      · refine ⟨?_, ?_, ?_⟩
        · simp [handleUpdate, Object.asCRD, queueOps, hv]
        · intro o2 n2 ho hn _
          cases ho
          cases hn
          simp [handleUpdate, Object.asCRD, queueOps, hv]
        · intro hno
          exact absurd ⟨o, n, rfl, rfl, hv⟩ hno

/-- C1 at concrete inputs: an update from version 1 to version 2 enqueues the
name once, a resync at the same version and a tombstone enqueue nothing. -/
theorem handleUpdate_add_iff_version_differs_witness :
    queueOps (@handleUpdate Unit (.crd (widget "1")) (.crd (widget "2")))
        = [QueueOp.Add "widget-crd"] ∧
    queueOps (@handleUpdate Unit (.crd (widget "2")) (.crd (widget "2"))) = [] ∧
    queueOps (@handleUpdate Unit (.crd (widget "1")) (.other "DeletedFinalStateUnknown"))
        = [] := by
  refine ⟨?_, ?_, ?_⟩
  · exact (handleUpdate_add_iff_version_differs (.crd (widget "1")) (.crd (widget "2"))).2.1
      (widget "1") (widget "2") rfl rfl (by decide)
  · exact (handleUpdate_add_iff_version_differs (.crd (widget "2")) (.crd (widget "2"))).2.2
      (by rintro ⟨o, n, ho, hn, hv⟩; cases ho; cases hn; exact hv rfl)
  · exact (handleUpdate_add_iff_version_differs (.crd (widget "1"))
      (.other "DeletedFinalStateUnknown")).2.2
      (by rintro ⟨o, n, ho, hn, hv⟩; cases hn)

/-! ## Callback registry -/

/-- C7: after `RegisterCallback(k, h)` a lookup of `k` finds exactly `h`, whatever
was registered for `k` before, and the lookup of every other key is unchanged
(the cache is untouched as well). -/
theorem RegisterCallback_lookup {σ : Type} (w : CRDWatcher σ) (k : String)
    (h : CRDCallback σ) :
    (RegisterCallback w k h).1.callbacks k = some h ∧
    (∀ k2, k2 ≠ k → (RegisterCallback w k h).1.callbacks k2 = w.callbacks k2) ∧
    (RegisterCallback w k h).1.indexer = w.indexer := by
  refine ⟨?_, ?_, rfl⟩
  · simp [RegisterCallback]
  · intro k2 hk
    simp [RegisterCallback, hk]

/-- C7 at a concrete input: registering twice under one key leaves the second
callback, and another key still has none. -/
theorem RegisterCallback_lookup_witness :
    (RegisterCallback (RegisterCallback ⟨emptyCache, noCallbacks⟩ "widget-crd"
        quietCallback).1 "widget-crd" recordVersion).1.callbacks "widget-crd"
      = some recordVersion ∧
    (RegisterCallback (RegisterCallback ⟨emptyCache, noCallbacks⟩ "widget-crd"
        quietCallback).1 "widget-crd" recordVersion).1.callbacks "gadget-crd"
      = none := by
  have key := RegisterCallback_lookup
    (RegisterCallback ⟨emptyCache, noCallbacks⟩ "widget-crd" quietCallback).1
    "widget-crd" recordVersion
  refine ⟨key.1, ?_⟩
  rw [key.2.1 "gadget-crd" (by decide)]
  simp [RegisterCallback, noCallbacks]

/-! ## Resource coordinate -/

/-- C8: for a resource definition with at least one declared version,
`GetGVRFromCRD` returns the declared group, the name of the first version entry
and the plural name, whatever the later version entries are; with no declared
version it produces no value. -/
theorem GetGVRFromCRD_first_version (crd : CustomResourceDefinition) :
    (∀ v rest, crd.Spec.Versions = v :: rest →
      GetGVRFromCRD crd =
        some { Group := crd.Spec.Group, Version := v.Name,
               Resource := crd.Spec.Names.Plural }) ∧
    (crd.Spec.Versions = [] → GetGVRFromCRD crd = none) ∧
    (crd.Spec.Versions ≠ [] → (GetGVRFromCRD crd).isSome = true) := by
  refine ⟨?_, ?_, ?_⟩
  · intro v rest hv
    simp [GetGVRFromCRD, hv]
  · intro hv
    simp [GetGVRFromCRD, hv]
  · intro hv
    cases hvs : crd.Spec.Versions with
    | nil => exact absurd hvs hv
    | cons v rest => simp [GetGVRFromCRD, hvs]

/-- C8 at concrete inputs: two declared versions give the first one, none gives
no value. -/
theorem GetGVRFromCRD_first_version_witness :
    GetGVRFromCRD (widget "7") =
      some { Group := "example.com", Version := "v1alpha1", Resource := "widgets" } ∧
    GetGVRFromCRD ⟨"bare", "1", ⟨"example.com", ⟨"bares"⟩, []⟩⟩ = none :=
  ⟨(GetGVRFromCRD_first_version (widget "7")).1 ⟨"v1alpha1"⟩ [⟨"v1"⟩] rfl,
   (GetGVRFromCRD_first_version ⟨"bare", "1", ⟨"example.com", ⟨"bares"⟩, []⟩⟩).2.1 rfl⟩


/-! ## Dispatch: `processCRD` and `processNextItem` -/

/-- C2: when, at processing time, the cache holds object `o` under `k` and the
registry holds `h` under `k`, `processCRD(k)` invokes `h` exactly once, with
argument `o`, invokes nothing else, and returns no error: it returns nil when
the call returns (a panic of `h` is not a returned error, it leaves the
method).  The function reads only the watcher state at processing time and the
key: what an earlier update notification carried, or when `h` was registered,
is no input of it. -/
theorem processCRD_invokes_current_object {σ : Type} (w : CRDWatcher σ) (k : String)
    (o : CustomResourceDefinition) (h : CRDCallback σ) (s : σ)
    (hc : w.indexer k = ⟨.crd o, true, none⟩) (hr : w.callbacks k = some h) :
    calls (processCRD w k s).trace = [(h, o)] ∧
    (∀ e, (processCRD w k s).result ≠ .returned (some e)) ∧
    (processCRD w k s).state = (h o s).state ∧
    (∀ s2, h o s = .returns s2 →
      (processCRD w k s).result = .returned none ∧ (processCRD w k s).state = s2) ∧
    (∀ s2, h o s = .panics s2 → (processCRD w k s).result = .panicked) := by
  obtain ⟨htr, hst, hres⟩ := processCRD_hit w k o h s hc hr
  refine ⟨by rw [htr]; rfl, ?_, hst, ?_, ?_⟩
  · intro e
    rw [hres]
    cases h o s <;> simp
  · intro s2 hh
    rw [hres, hst, hh]
    exact ⟨rfl, rfl⟩
  · intro s2 hh
    rw [hres, hh]

/-- C2 at a concrete input: the key was enqueued by an update from version 1 to
version 2, the cache has moved on to version 3 and the callback was registered
after the enqueue; the callback is shown version 3, once. -/
theorem processCRD_invokes_current_object_witness :
    queueOps (@handleUpdate (List String) (.crd (widget "1")) (.crd (widget "2")))
      = [QueueOp.Add "widget-crd"] ∧
    calls (processCRD
        (RegisterCallback ⟨cacheWith (.crd (widget "3")), noCallbacks⟩ "widget-crd"
          recordVersion).1 "widget-crd" []).trace = [(recordVersion, widget "3")] ∧
    (processCRD
        (RegisterCallback ⟨cacheWith (.crd (widget "3")), noCallbacks⟩ "widget-crd"
          recordVersion).1 "widget-crd" []).result = .returned none ∧
    (processCRD
        (RegisterCallback ⟨cacheWith (.crd (widget "3")), noCallbacks⟩ "widget-crd"
          recordVersion).1 "widget-crd" []).state = ["3"] := by
  refine ⟨by simp [handleUpdate, Object.asCRD, queueOps, widget], ?_⟩
  have key := processCRD_invokes_current_object
    (RegisterCallback ⟨cacheWith (.crd (widget "3")), noCallbacks⟩ "widget-crd"
      recordVersion).1 "widget-crd" (widget "3") recordVersion []
    (by simp [RegisterCallback, cacheWith]) (by simp [RegisterCallback])
  have hret : recordVersion (widget "3") [] = .returns ["3"] := by
    simp [recordVersion, widget]
  exact ⟨key.1, (key.2.2.2.1 ["3"] hret).1, (key.2.2.2.1 ["3"] hret).2⟩

/-- C3: when `k` is absent from the cache at dispatch time, `processCRD(k)`
returns no error and invokes no callback, whatever the registry holds for `k`;
`processNextItem` then treats the item as a success: `Forget(k)` and `Done(k)`
are called, `AddRateLimited` is not, and nothing is logged as an error. -/
theorem processCRD_absent_is_success {σ : Type} (w : CRDWatcher σ) (k : String) (s : σ)
    (habs : (w.indexer k).found = false) (herr : (w.indexer k).err = none) :
    (processCRD w k s).result = .returned none ∧
    calls (processCRD w k s).trace = [] ∧
    (processCRD w k s).state = s ∧
    queueOps (processNextItem w (k, false) s).trace
      = [QueueOp.Get, QueueOp.Forget k, QueueOp.Done k] ∧
    calls (processNextItem w (k, false) s).trace = [] ∧
    errorLogs (processNextItem w (k, false) s).trace = [] ∧
    (processNextItem w (k, false) s).result = .returned true := by
  have hp := processCRD_absent w k s habs herr
  refine ⟨by rw [hp], by rw [hp]; rfl, by rw [hp], ?_, ?_, ?_, ?_⟩ <;>
    simp [processNextItem, hp, queueOps, calls, errorLogs]

/-- C3 at a concrete input: a callback is registered for `widget-crd`, the cache
is empty; the callback is not invoked and the item is forgotten. -/
theorem processCRD_absent_is_success_witness :
    (RegisterCallback ⟨emptyCache, noCallbacks⟩ "widget-crd" recordVersion).1.callbacks
        "widget-crd" = some recordVersion ∧
    calls (processCRD (RegisterCallback ⟨emptyCache, noCallbacks⟩ "widget-crd"
        recordVersion).1 "widget-crd" []).trace = [] ∧
    queueOps (processNextItem (RegisterCallback ⟨emptyCache, noCallbacks⟩ "widget-crd"
        recordVersion).1 ("widget-crd", false) []).trace
      = [QueueOp.Get, QueueOp.Forget "widget-crd", QueueOp.Done "widget-crd"] := by
  have key := processCRD_absent_is_success
    (RegisterCallback ⟨emptyCache, noCallbacks⟩ "widget-crd" recordVersion).1
    "widget-crd" [] rfl rfl
  exact ⟨by simp [RegisterCallback], key.2.1, key.2.2.2.1⟩

/-- C4: after `UnregisterCallback(k)` the registry has no entry for `k`, and
dispatching `k` while the cache holds a resource definition under `k` invokes
no callback, leaves the collaborator state alone and returns no error; in
general every callback `processCRD` invokes is the one registered under the
key, so a key without an entry has no callback invoked. -/
theorem UnregisterCallback_then_dispatch {σ : Type} (w : CRDWatcher σ) (k : String) (s : σ) :
    (UnregisterCallback w k).1.callbacks k = none ∧
    (∀ o, w.indexer k = ⟨.crd o, true, none⟩ →
      calls (processCRD (UnregisterCallback w k).1 k s).trace = [] ∧
      (processCRD (UnregisterCallback w k).1 k s).result = .returned none ∧
      (processCRD (UnregisterCallback w k).1 k s).state = s) ∧
    (∀ (w2 : CRDWatcher σ) (k2 : String) (s2 : σ), w2.callbacks k2 = none →
      calls (processCRD w2 k2 s2).trace = []) ∧
    (∀ (w2 : CRDWatcher σ) (k2 : String) (s2 : σ),
      ∀ p ∈ calls (processCRD w2 k2 s2).trace, w2.callbacks k2 = some p.1) := by
  have hun : (UnregisterCallback w k).1.callbacks k = none := by simp [UnregisterCallback]
  refine ⟨hun, ?_, ?_, ?_⟩
  · intro o ho
    have hp := processCRD_unregistered (UnregisterCallback w k).1 k o s ho hun
    rw [hp]
    exact ⟨rfl, rfl, rfl⟩
  · intro w2 k2 s2 hnone
    cases hcalls : calls (processCRD w2 k2 s2).trace with
    | nil => rfl
    | cons p rest =>
      have hreg := calls_processCRD_registered w2 k2 s2 p (by simp [hcalls])
      rw [hnone] at hreg
      cases hreg
  · intro w2 k2 s2
    exact calls_processCRD_registered w2 k2 s2

/-- C4 at a concrete input: register, unregister, dispatch with the object in
the cache; no callback runs and no error is returned. -/
theorem UnregisterCallback_then_dispatch_witness :
    calls (processCRD (UnregisterCallback (RegisterCallback
        ⟨cacheWith (.crd (widget "3")), noCallbacks⟩ "widget-crd" recordVersion).1
        "widget-crd").1 "widget-crd" []).trace = [] ∧
    (processCRD (UnregisterCallback (RegisterCallback
        ⟨cacheWith (.crd (widget "3")), noCallbacks⟩ "widget-crd" recordVersion).1
        "widget-crd").1 "widget-crd" []).result = .returned none := by
  have key := (UnregisterCallback_then_dispatch (RegisterCallback
    ⟨cacheWith (.crd (widget "3")), noCallbacks⟩ "widget-crd" recordVersion).1
    "widget-crd" []).2.1 (widget "3") (by simp [RegisterCallback, cacheWith])
  exact ⟨key.1, key.2.1⟩

/-! ## Worker: queue protocol -/

/-- The queue calls of one worker iteration on a dequeued key. -/
theorem queueOps_processNextItem {σ : Type} (w : CRDWatcher σ) (k : String) (s : σ) :
    queueOps (processNextItem w (k, false) s).trace =
      match (processCRD w k s).result with
      | .returned none => [QueueOp.Get, QueueOp.Forget k, QueueOp.Done k]
      | .returned (some _) => [QueueOp.Get, QueueOp.AddRateLimited k, QueueOp.Done k]
      | .panicked => [QueueOp.Get, QueueOp.Done k] := by
  cases hres : (processCRD w k s).result with
  | panicked =>
    simp [processNextItem, hres, queueOps_append, queueOps_processCRD, queueOps]
  | returned v =>
    cases v with
    | none =>
      simp [processNextItem, hres, queueOps_append, queueOps_processCRD, queueOps]
    | some e =>
      simp [processNextItem, hres, queueOps_append, queueOps_processCRD, queueOps]

/-- How one worker iteration on a dequeued key ends: with true when `processCRD`
returns, nil or not, and by the panic when it panics. -/
theorem processNextItem_result {σ : Type} (w : CRDWatcher σ) (k : String) (s : σ) :
    (processNextItem w (k, false) s).result =
      match (processCRD w k s).result with
      | .returned _ => Exit.returned true
      | .panicked => Exit.panicked := by
  cases hres : (processCRD w k s).result with
  | panicked => simp [processNextItem, hres]
  | returned v => cases v <;> simp [processNextItem, hres]

/-- The state one worker iteration on a dequeued key leaves. -/
theorem processNextItem_state {σ : Type} (w : CRDWatcher σ) (k : String) (s : σ) :
    (processNextItem w (k, false) s).state = (processCRD w k s).state := by
  cases hres : (processCRD w k s).result with
  | panicked => simp [processNextItem, hres]
  | returned v => cases v <;> simp [processNextItem, hres]

/-- One worker iteration calls `Get` once. -/
theorem count_Get_processNextItem {σ : Type} (w : CRDWatcher σ) (get : String × Bool)
    (s : σ) : (queueOps (processNextItem w get s).trace).count QueueOp.Get = 1 := by
  obtain ⟨k, q⟩ := get
  cases q with
  | true => simp [processNextItem, queueOps]
  | false =>
    rw [queueOps_processNextItem]
    cases (processCRD w k s).result with
    | panicked => simp [List.count_cons]
    | returned v => cases v <;> simp [List.count_cons]

/-- C6: for every key `k` returned by a non-shutdown `Get`, the queue calls of
`processNextItem` are, in order, `Get`, then `Forget(k)` and `Done(k)` when
`processCRD(k)` succeeds, `AddRateLimited(k)` and `Done(k)` when it fails;
`Done(k)` is called exactly once either way (and also when a panic leaves
`processCRD`, where it is the only call after `Get`), `Forget` is never called
on failure and `AddRateLimited` never on success. -/
theorem processNextItem_queue_protocol {σ : Type} (w : CRDWatcher σ) (k : String) (s : σ) :
    ((processCRD w k s).result = .returned none →
      queueOps (processNextItem w (k, false) s).trace
        = [QueueOp.Get, QueueOp.Forget k, QueueOp.Done k]) ∧
    (∀ e, (processCRD w k s).result = .returned (some e) →
      queueOps (processNextItem w (k, false) s).trace
        = [QueueOp.Get, QueueOp.AddRateLimited k, QueueOp.Done k]) ∧
    (queueOps (processNextItem w (k, false) s).trace).count (QueueOp.Done k) = 1 ∧
    (∀ e k2, (processCRD w k s).result = .returned (some e) →
      QueueOp.Forget k2 ∉ queueOps (processNextItem w (k, false) s).trace) ∧
    (∀ k2, (processCRD w k s).result = .returned none →
      QueueOp.AddRateLimited k2 ∉ queueOps (processNextItem w (k, false) s).trace) ∧
    ((processCRD w k s).result = .panicked →
      queueOps (processNextItem w (k, false) s).trace = [QueueOp.Get, QueueOp.Done k]) := by
  rw [queueOps_processNextItem]
  cases hres : (processCRD w k s).result with
  | panicked => simp [List.count_cons]
  | returned v => cases v <;> simp [List.count_cons]

/-- C6 at concrete inputs: a dispatch that succeeds (object and callback present)
and one that fails (the cache holds an object of another type). -/
theorem processNextItem_queue_protocol_witness :
    queueOps (processNextItem
        (RegisterCallback ⟨cacheWith (.crd (widget "3")), noCallbacks⟩ "widget-crd"
          recordVersion).1 ("widget-crd", false) []).trace
      = [QueueOp.Get, QueueOp.Forget "widget-crd", QueueOp.Done "widget-crd"] ∧
    queueOps (processNextItem
        (⟨cacheWith (.other "v1.ConfigMap"), noCallbacks⟩ : CRDWatcher (List String))
        ("widget-crd", false) []).trace
      = [QueueOp.Get, QueueOp.AddRateLimited "widget-crd", QueueOp.Done "widget-crd"] :=
  ⟨(processNextItem_queue_protocol
      (RegisterCallback ⟨cacheWith (.crd (widget "3")), noCallbacks⟩ "widget-crd"
        recordVersion).1 "widget-crd" []).1
      (by simp [processCRD, RegisterCallback, cacheWith, Object.asCRD, recordVersion]),
   (processNextItem_queue_protocol
      (⟨cacheWith (.other "v1.ConfigMap"), noCallbacks⟩ : CRDWatcher (List String))
      "widget-crd" []).2.1 "error casting object to CRD"
      (by simp [processCRD, cacheWith, Object.asCRD])⟩

/-! ## Handler failures -/

/-- C5, as stated, fails: the registered callback of `widget-crd` fails when it is
invoked (it panics, the one way a function without result can fail its
caller); the worker does not call `AddRateLimited`, only the deferred `Done`,
and `processNextItem` does not return true: the panic leaves it. -/
theorem handler_failure_is_not_requeued :
    calls (processNextItem
        (RegisterCallback ⟨cacheWith (.crd (widget "2")), noCallbacks⟩ "widget-crd"
          failingReconcile).1 ("widget-crd", false) []).trace
      = [(failingReconcile, widget "2")] ∧
    failingReconcile (widget "2") [] = .panics ["reconcile failed: widget-crd"] ∧
    queueOps (processNextItem
        (RegisterCallback ⟨cacheWith (.crd (widget "2")), noCallbacks⟩ "widget-crd"
          failingReconcile).1 ("widget-crd", false) []).trace
      = [QueueOp.Get, QueueOp.Done "widget-crd"] ∧
    QueueOp.AddRateLimited "widget-crd" ∉
      queueOps (processNextItem
        (RegisterCallback ⟨cacheWith (.crd (widget "2")), noCallbacks⟩ "widget-crd"
          failingReconcile).1 ("widget-crd", false) []).trace ∧
    (processNextItem
        (RegisterCallback ⟨cacheWith (.crd (widget "2")), noCallbacks⟩ "widget-crd"
          failingReconcile).1 ("widget-crd", false) []).result = .panicked := by
  have hfail : failingReconcile (widget "2") [] = .panics ["reconcile failed: widget-crd"] := by
    simp [failingReconcile, widget]
  obtain ⟨htr, _, hres⟩ := processCRD_hit
    (RegisterCallback ⟨cacheWith (.crd (widget "2")), noCallbacks⟩ "widget-crd"
      failingReconcile).1 "widget-crd" (widget "2") failingReconcile []
    (by simp [RegisterCallback, cacheWith]) (by simp [RegisterCallback])
  rw [hfail] at hres
  have hres2 : (processCRD (RegisterCallback ⟨cacheWith (.crd (widget "2")), noCallbacks⟩
      "widget-crd" failingReconcile).1 "widget-crd" []).result = .panicked := hres
  refine ⟨?_, hfail, ?_, ?_, ?_⟩
  · simp only [processNextItem, hres2, htr]
    simp [calls]
  · rw [queueOps_processNextItem, hres2]
  · rw [queueOps_processNextItem, hres2]
    simp
  · rw [processNextItem_result, hres2]

/-- The dispatch of a key returns an error exactly when the cache lookup
returns one or the cached object is not a resource definition. -/
theorem processCRD_error_iff {σ : Type} (w : CRDWatcher σ) (k : String) (s : σ) :
    (∃ e, (processCRD w k s).result = .returned (some e)) ↔
      ((w.indexer k).err ≠ none ∨
        ((w.indexer k).found = true ∧ (w.indexer k).item.asCRD = none)) := by
  rcases processCRD_cases w k s with ⟨e, he, h⟩ | ⟨he, hf, h⟩ | ⟨he, hf, hi, h⟩ |
    ⟨o, he, hf, hi, _, h⟩ | ⟨o, f, s2, he, hf, hi, _, _, h⟩ |
    ⟨o, f, s2, he, hf, hi, _, _, h⟩
  · rw [h]; simp [he]
  · rw [h]; simp [he, hf]
  · rw [h]; simp [he, hf, hi]
  · rw [h]; simp [he, hf, hi]
  · rw [h]; simp [he, hf, hi]
  · rw [h]; simp [he, hf, hi]

/-- A dispatch that returns an error has invoked no callback. -/
theorem processCRD_error_no_call {σ : Type} (w : CRDWatcher σ) (k : String) (s : σ)
    (e : String) (hres : (processCRD w k s).result = .returned (some e)) :
    (processCRD w k s).trace = [] ∧ (processCRD w k s).state = s := by
  revert hres
  rcases processCRD_cases w k s with ⟨e2, _, h⟩ | ⟨_, _, h⟩ | ⟨_, _, _, h⟩ |
    ⟨o, _, _, _, _, h⟩ | ⟨o, f, s2, _, _, _, _, _, h⟩ | ⟨o, f, s2, _, _, _, _, _, h⟩ <;>
    rw [h] <;> simp

/-- C5, amended: the worker turns the errors that `processCRD` returns (a cache
lookup error, or a cached object that is not a resource definition) into a
requeue with backoff: for every dequeued key `k`, `AddRateLimited(k)` is called
exactly when `processCRD(k)` returns an error, then without `Forget` and
without any callback having run, and `processNextItem` returns true all the
same.  A callback has no error result and cannot cause a requeue: when the
invoked callback returns, `processCRD` returns nil and the worker calls
`Forget(k)` then `Done(k)` and returns true; when it panics nothing recovers
the panic: neither `AddRateLimited` nor `Forget` is called, only the deferred
`Done(k)` runs, and the panic leaves `processNextItem`. -/
theorem processNextItem_requeues_processCRD_errors {σ : Type} (w : CRDWatcher σ)
    (k : String) (s : σ) :
    (∀ o h, w.indexer k = ⟨.crd o, true, none⟩ → w.callbacks k = some h →
      (∀ s2, h o s = .returns s2 →
        queueOps (processNextItem w (k, false) s).trace
          = [QueueOp.Get, QueueOp.Forget k, QueueOp.Done k] ∧
        (processNextItem w (k, false) s).result = .returned true ∧
        (processNextItem w (k, false) s).state = s2) ∧
      (∀ s2, h o s = .panics s2 →
        queueOps (processNextItem w (k, false) s).trace
          = [QueueOp.Get, QueueOp.Done k] ∧
        (processNextItem w (k, false) s).result = .panicked ∧
        (processNextItem w (k, false) s).state = s2)) ∧
    (QueueOp.AddRateLimited k ∈ queueOps (processNextItem w (k, false) s).trace ↔
      ∃ e, (processCRD w k s).result = .returned (some e)) ∧
    ((∃ e, (processCRD w k s).result = .returned (some e)) ↔
      ((w.indexer k).err ≠ none ∨
        ((w.indexer k).found = true ∧ (w.indexer k).item.asCRD = none))) ∧
    (∀ e, (processCRD w k s).result = .returned (some e) →
      queueOps (processNextItem w (k, false) s).trace
        = [QueueOp.Get, QueueOp.AddRateLimited k, QueueOp.Done k] ∧
      calls (processNextItem w (k, false) s).trace = [] ∧
      (processNextItem w (k, false) s).state = s ∧
      (processNextItem w (k, false) s).result = .returned true) := by
  refine ⟨?_, ?_, processCRD_error_iff w k s, ?_⟩
  · intro o h hc hr
    obtain ⟨_, hst, hres⟩ := processCRD_hit w k o h s hc hr
    refine ⟨?_, ?_⟩
    · intro s2 hh
      rw [hh] at hres hst
      refine ⟨?_, ?_, ?_⟩
      · rw [queueOps_processNextItem, hres]
      · rw [processNextItem_result, hres]
      · rw [processNextItem_state, hst]
        rfl
    · intro s2 hh
      rw [hh] at hres hst
      refine ⟨?_, ?_, ?_⟩
      · rw [queueOps_processNextItem, hres]
      · rw [processNextItem_result, hres]
      · rw [processNextItem_state, hst]
        rfl
  · rw [queueOps_processNextItem]
    cases (processCRD w k s).result with
    | panicked => simp
    | returned v => cases v <;> simp
  · intro e hres
    obtain ⟨htr, hst⟩ := processCRD_error_no_call w k s e hres
    refine ⟨?_, ?_, ?_, ?_⟩
    · rw [queueOps_processNextItem, hres]
    · simp [processNextItem, hres, htr, calls]
    · rw [processNextItem_state, hst]
    · rw [processNextItem_result, hres]

/-- C5 amended, at concrete inputs: a cache lookup error is requeued with
backoff, a callback that returned is followed by `Forget`. -/
theorem processNextItem_requeues_processCRD_errors_witness :
    queueOps (processNextItem
        (⟨fun _ => ⟨.other "nil", false, some "store closed"⟩, noCallbacks⟩ :
          CRDWatcher (List String)) ("widget-crd", false) []).trace
      = [QueueOp.Get, QueueOp.AddRateLimited "widget-crd", QueueOp.Done "widget-crd"] ∧
    queueOps (processNextItem
        (RegisterCallback ⟨cacheWith (.crd (widget "2")), noCallbacks⟩ "widget-crd"
          recordVersion).1 ("widget-crd", false) []).trace
      = [QueueOp.Get, QueueOp.Forget "widget-crd", QueueOp.Done "widget-crd"] :=
  ⟨((processNextItem_requeues_processCRD_errors
      (⟨fun _ => ⟨.other "nil", false, some "store closed"⟩, noCallbacks⟩ :
        CRDWatcher (List String)) "widget-crd" []).2.2.2
      "error getting CRD from cache: store closed" (by simp [processCRD])).1,
   (((processNextItem_requeues_processCRD_errors
      (RegisterCallback ⟨cacheWith (.crd (widget "2")), noCallbacks⟩ "widget-crd"
        recordVersion).1 "widget-crd" []).1 (widget "2") recordVersion
      (by simp [RegisterCallback, cacheWith]) (by simp [RegisterCallback])).1 ["2"]
      (by simp [recordVersion, widget])).1⟩

/-! ## Worker loop -/

/-- One worker iteration returns false exactly on shutdown. -/
theorem processNextItem_false_iff {σ : Type} (w : CRDWatcher σ) (get : String × Bool)
    (s : σ) : (processNextItem w get s).result = .returned false ↔ get.2 = true := by
  obtain ⟨k, q⟩ := get
  cases q with
  | true => simp [processNextItem]
  | false =>
    rw [processNextItem_result]
    cases (processCRD w k s).result <;> simp

/-- When every registered callback returns, so does the dispatch. -/
theorem processCRD_returns {σ : Type} (w : CRDWatcher σ) (hw : callbacksReturn w)
    (k : String) (s : σ) : ∃ v, (processCRD w k s).result = .returned v := by
  rcases processCRD_cases w k s with ⟨e, _, h⟩ | ⟨_, _, h⟩ | ⟨_, _, _, h⟩ |
    ⟨o, _, _, _, _, h⟩ | ⟨o, f, s2, _, _, _, _, _, h⟩ | ⟨o, f, s2, _, _, _, hc, hp, h⟩
  · exact ⟨_, by rw [h]⟩
  · exact ⟨_, by rw [h]⟩
  · exact ⟨_, by rw [h]⟩
  · exact ⟨_, by rw [h]⟩
  · exact ⟨_, by rw [h]⟩
  · obtain ⟨s3, hs3⟩ := hw k f o s hc
    rw [hs3] at hp
    cases hp

/-- The loop returns only when one of the answers of `Get` reports shutdown. -/
theorem runWorker_returned_only_on_shutdown {σ : Type}
    (turns : List (CRDWatcher σ × (String × Bool))) (s : σ) (r : Run σ Unit)
    (hrun : runWorker turns s = some r) (hret : r.result = .returned ()) :
    turns.any (fun t => t.2.2) = true := by
  induction turns generalizing s r with
  | nil => simp [runWorker] at hrun
  | cons t rest ih =>
    obtain ⟨w, get⟩ := t
    cases hres : (processNextItem w get s).result with
    | panicked =>
      simp only [runWorker, hres, Option.some.injEq] at hrun
      rw [← hrun] at hret
      cases hret
    | returned b =>
      cases b with
      | false =>
        have hq := (processNextItem_false_iff w get s).1 hres
        simp [hq]
      | true =>
        simp only [runWorker, hres, Option.map_eq_some'] at hrun
        obtain ⟨r2, hr2, hr⟩ := hrun
        have hret2 : r2.result = .returned () := by
          rw [← hr] at hret
          exact hret
        have := ih (processNextItem w get s).state r2 hr2 hret2
        simp [this]

/-- An iteration whose dispatch returns, with nil or with an error, does not end
the loop: the worker goes on to the next `Get`. -/
theorem runWorker_continues {σ : Type} (w : CRDWatcher σ) (k : String)
    (rest : List (CRDWatcher σ × (String × Bool))) (s : σ) (v : Option String)
    (hres : (processCRD w k s).result = .returned v) :
    runWorker ((w, (k, false)) :: rest) s =
      (runWorker rest (processCRD w k s).state).map fun r2 =>
        ⟨r2.result, (processNextItem w (k, false) s).trace ++ r2.trace, r2.state⟩ := by
  have h1 : (processNextItem w (k, false) s).result = .returned true := by
    rw [processNextItem_result, hres]
  simp only [runWorker, h1, processNextItem_state]

/-- A panic that leaves the dispatch ends the loop, whatever `Get` would answer
next. -/
theorem runWorker_panicked {σ : Type} (w : CRDWatcher σ) (k : String)
    (rest : List (CRDWatcher σ × (String × Bool))) (s : σ)
    (hres : (processCRD w k s).result = .panicked) :
    runWorker ((w, (k, false)) :: rest) s =
      some ⟨.panicked, (processNextItem w (k, false) s).trace,
            (processNextItem w (k, false) s).state⟩ := by
  have h1 : (processNextItem w (k, false) s).result = .panicked := by
    rw [processNextItem_result, hres]
  simp only [runWorker, h1]

/-- While the registered callbacks return, the loop dequeues every item that
precedes the first shutdown answer, failing ones included, and returns there. -/
theorem runWorker_until_shutdown {σ : Type} (pre : List (CRDWatcher σ × (String × Bool)))
    (wq : CRDWatcher σ) (kq : String) (post : List (CRDWatcher σ × (String × Bool))) (s : σ)
    (hpre : ∀ t ∈ pre, t.2.2 = false ∧ callbacksReturn t.1) :
    ∃ r, runWorker (pre ++ (wq, (kq, true)) :: post) s = some r ∧
      r.result = .returned () ∧
      (queueOps r.trace).count QueueOp.Get = pre.length + 1 := by
  induction pre generalizing s with
  | nil =>
    refine ⟨⟨.returned (), [.queue .Get], s⟩, ?_, rfl, ?_⟩
    · simp [runWorker, processNextItem]
    · simp [queueOps]
  | cons t rest ih =>
    obtain ⟨w, k, q⟩ := t
    obtain ⟨hq, hw⟩ := hpre (w, k, q) (by simp)
    have hq2 : q = false := hq
    subst hq2
    obtain ⟨v, hv⟩ := processCRD_returns w hw k s
    obtain ⟨r, hr, hret, hcount⟩ := ih (processCRD w k s).state
      (fun u hu => hpre u (by simp [hu]))
    refine ⟨⟨r.result, (processNextItem w (k, false) s).trace ++ r.trace, r.state⟩,
      ?_, hret, ?_⟩
    · rw [List.cons_append, runWorker_continues w k _ s v hv, hr]
      rfl
    · simp only [queueOps_append, List.count_append, count_Get_processNextItem, hcount,
        List.length_cons]
      omega

/-- C10, as stated, fails: the registered callback of the dequeued key panics;
`processNextItem` does not return true, and `runWorker` ends after this one
`Get` although no `Get` has reported shutdown. -/
theorem handler_panic_ends_worker_loop :
    (processNextItem
        (RegisterCallback ⟨cacheWith (.crd (widget "2")), noCallbacks⟩ "widget-crd"
          failingReconcile).1 ("widget-crd", false) []).result = .panicked ∧
    ∃ r, runWorker
        [((RegisterCallback ⟨cacheWith (.crd (widget "2")), noCallbacks⟩ "widget-crd"
            failingReconcile).1, ("widget-crd", false)),
         ((RegisterCallback ⟨cacheWith (.crd (widget "2")), noCallbacks⟩ "widget-crd"
            failingReconcile).1, ("widget-crd", false))] [] = some r ∧
      r.result = .panicked ∧
      queueOps r.trace = [QueueOp.Get, QueueOp.Done "widget-crd"] := by
  have hfail : failingReconcile (widget "2") [] = .panics ["reconcile failed: widget-crd"] := by
    simp [failingReconcile, widget]
  obtain ⟨_, _, hres⟩ := processCRD_hit
    (RegisterCallback ⟨cacheWith (.crd (widget "2")), noCallbacks⟩ "widget-crd"
      failingReconcile).1 "widget-crd" (widget "2") failingReconcile []
    (by simp [RegisterCallback, cacheWith]) (by simp [RegisterCallback])
  rw [hfail] at hres
  have hres2 : (processCRD (RegisterCallback ⟨cacheWith (.crd (widget "2")), noCallbacks⟩
      "widget-crd" failingReconcile).1 "widget-crd" []).result = .panicked := hres
  refine ⟨by rw [processNextItem_result, hres2], _, runWorker_panicked _ _ _ _ hres2, rfl, ?_⟩
  rw [queueOps_processNextItem, hres2]

/-- C10, amended: `processNextItem` returns false iff `Get` reports shutdown, and
then it does nothing else (no processing, no further queue call); for every
dequeued key it returns true whenever `processCRD` returns, with nil or with an
error, and the loop of `runWorker` then goes on to the next `Get`: the loop
returns only at a `Get` that reports shutdown and never because `processCRD`
returned an error; while the registered callbacks return it does so at the
first such `Get`, after dequeuing every earlier item.  Nothing recovers a panic
of a registered callback: it leaves `processNextItem` without a result and
ends `runWorker` before any shutdown. -/
theorem processNextItem_false_iff_shutdown {σ : Type} (w : CRDWatcher σ)
    (get : String × Bool) (s : σ) :
    ((processNextItem w get s).result = .returned false ↔ get.2 = true) ∧
    (get.2 = true →
      (processNextItem w get s).trace = [.queue .Get] ∧ (processNextItem w get s).state = s) ∧
    (∀ k v, (processCRD w k s).result = .returned v →
      (processNextItem w (k, false) s).result = .returned true ∧
      ∀ rest, (runWorker ((w, (k, false)) :: rest) s).isSome
        = (runWorker rest (processCRD w k s).state).isSome) ∧
    (∀ k, (processCRD w k s).result = .panicked →
      (processNextItem w (k, false) s).result = .panicked ∧
      ∀ rest, ∃ r, runWorker ((w, (k, false)) :: rest) s = some r ∧ r.result = .panicked) ∧
    (∀ (turns : List (CRDWatcher σ × (String × Bool))) (s0 : σ) (r : Run σ Unit),
      runWorker turns s0 = some r → r.result = .returned () →
      turns.any (fun t => t.2.2) = true) ∧
    (∀ (pre : List (CRDWatcher σ × (String × Bool))) (wq : CRDWatcher σ) (kq : String)
        (post : List (CRDWatcher σ × (String × Bool))) (s0 : σ),
      (∀ t ∈ pre, t.2.2 = false ∧ callbacksReturn t.1) →
      ∃ r, runWorker (pre ++ (wq, (kq, true)) :: post) s0 = some r ∧
        r.result = .returned () ∧
        (queueOps r.trace).count QueueOp.Get = pre.length + 1) := by
  refine ⟨processNextItem_false_iff w get s, ?_, ?_, ?_,
    runWorker_returned_only_on_shutdown, runWorker_until_shutdown⟩
  · intro hq
    simp [processNextItem, hq]
  · intro k v hres
    refine ⟨by rw [processNextItem_result, hres], ?_⟩
    intro rest
    rw [runWorker_continues w k rest s v hres]
    simp
  · intro k hres
    refine ⟨by rw [processNextItem_result, hres], ?_⟩
    intro rest
    exact ⟨_, runWorker_panicked w k rest s hres, rfl⟩

/-- C10 amended, at concrete inputs: a failing item (wrong object type in the
cache) then a shutdown; the first iteration returns true, the second false,
and the loop returns after two calls of `Get`. -/
theorem processNextItem_false_iff_shutdown_witness :
    (processNextItem (⟨cacheWith (.other "v1.ConfigMap"), noCallbacks⟩ : CRDWatcher Unit)
        ("widget-crd", false) ()).result = .returned true ∧
    (processNextItem (⟨cacheWith (.other "v1.ConfigMap"), noCallbacks⟩ : CRDWatcher Unit)
        ("", true) ()).result = .returned false ∧
    ∃ r, runWorker ([((⟨cacheWith (.other "v1.ConfigMap"), noCallbacks⟩ : CRDWatcher Unit),
        ("widget-crd", false))] ++ (⟨emptyCache, noCallbacks⟩, ("", true)) :: []) ()
        = some r ∧ r.result = .returned () ∧
      (queueOps r.trace).count QueueOp.Get = 2 :=
  ⟨((processNextItem_false_iff_shutdown
      (⟨cacheWith (.other "v1.ConfigMap"), noCallbacks⟩ : CRDWatcher Unit)
      ("widget-crd", false) ()).2.2.1 "widget-crd" (some "error casting object to CRD")
      (by simp [processCRD, cacheWith, Object.asCRD])).1,
   (processNextItem_false_iff_shutdown _ ("", true) ()).1.2 rfl,
   (processNextItem_false_iff_shutdown
      (⟨emptyCache, noCallbacks⟩ : CRDWatcher Unit) ("", true) ()).2.2.2.2.2
      [((⟨cacheWith (.other "v1.ConfigMap"), noCallbacks⟩ : CRDWatcher Unit),
        ("widget-crd", false))] ⟨emptyCache, noCallbacks⟩ "" [] ()
      (by
        intro t ht
        simp only [List.mem_singleton] at ht
        subst ht
        refine ⟨rfl, ?_⟩
        intro k h o s hk
        simp [noCallbacks] at hk)⟩

/-! ## Lifecycle: `Start` -/

/-- A poll at which neither signal is seen leads to the next poll. -/
theorem WaitForCacheSync_step (env : SyncEnv) (fuel t : Nat)
    (hs : env.hasSynced t = false) (hc : env.stopClosed t = false) :
    WaitForCacheSync env (fuel + 1) t = WaitForCacheSync env fuel (t + 1) := by
  simp [WaitForCacheSync, hs, hc]

/-- While neither signal occurs the wait does not return. -/
theorem WaitForCacheSync_none (env : SyncEnv)
    (hnever : ∀ t, env.hasSynced t = false ∧ env.stopClosed t = false) (fuel t0 : Nat) :
    WaitForCacheSync env fuel t0 = none := by
  induction fuel generalizing t0 with
  | zero => rfl
  | succ n ih => rw [WaitForCacheSync_step env n t0 (hnever t0).1 (hnever t0).2, ih]

/-- The wait answers true only after the sync signal has fired. -/
theorem WaitForCacheSync_true (env : SyncEnv) (fuel t0 : Nat)
    (h : WaitForCacheSync env fuel t0 = some true) : ∃ t, env.hasSynced t = true := by
  induction fuel generalizing t0 with
  | zero => simp [WaitForCacheSync] at h
  | succ n ih =>
    cases hs : env.hasSynced t0 with
    | true => exact ⟨t0, hs⟩
    | false =>
      cases hc : env.stopClosed t0 with
      | true => simp [WaitForCacheSync, hs, hc] at h
      | false =>
        rw [WaitForCacheSync_step env n t0 hs hc] at h
        exact ih (t0 + 1) h

/-- The wait answers false only when the stop channel is closed. -/
theorem WaitForCacheSync_false (env : SyncEnv) (fuel t0 : Nat)
    (h : WaitForCacheSync env fuel t0 = some false) : ∃ t, env.stopClosed t = true := by
  induction fuel generalizing t0 with
  | zero => simp [WaitForCacheSync] at h
  | succ n ih =>
    cases hc : env.stopClosed t0 with
    | true => exact ⟨t0, hc⟩
    | false =>
      cases hs : env.hasSynced t0 with
      | true => simp [WaitForCacheSync, hs, hc] at h
      | false =>
        rw [WaitForCacheSync_step env n t0 hs hc] at h
        exact ih (t0 + 1) h

/-- Once one of the two signals occurs, the wait returns. -/
theorem WaitForCacheSync_returns (env : SyncEnv) (d t0 : Nat)
    (h : env.hasSynced (t0 + d) = true ∨ env.stopClosed (t0 + d) = true) :
    ∃ b, WaitForCacheSync env (d + 1) t0 = some b := by
  induction d generalizing t0 with
  | zero =>
    cases hs : env.hasSynced t0 with
    | true =>
      cases hc : env.stopClosed t0 with
      | true =>
        by_cases ht : t0 = 0
        · exact ⟨true, by subst ht; simp [WaitForCacheSync, hs]⟩
        · exact ⟨false, by simp [WaitForCacheSync, hc, ht]⟩
      | false => exact ⟨true, by simp [WaitForCacheSync, hs, hc]⟩
    | false =>
      have hc : env.stopClosed t0 = true := by
        rcases h with h | h
        · rw [Nat.add_zero, hs] at h
          cases h
        · exact h
      exact ⟨false, by simp [WaitForCacheSync, hs, hc]⟩
  | succ n ih =>
    cases hs : env.hasSynced t0 with
    | true =>
      cases hc : env.stopClosed t0 with
      | true =>
        by_cases ht : t0 = 0
        · exact ⟨true, by subst ht; simp [WaitForCacheSync, hs]⟩
        · exact ⟨false, by simp [WaitForCacheSync, hc, ht]⟩
      | false => exact ⟨true, by simp [WaitForCacheSync, hs, hc]⟩
    | false =>
      cases hc : env.stopClosed t0 with
      | true => exact ⟨false, by simp [WaitForCacheSync, hs, hc]⟩
      | false =>
        have h2 : env.hasSynced (t0 + 1 + n) = true ∨ env.stopClosed (t0 + 1 + n) = true := by
          have : t0 + 1 + n = t0 + (n + 1) := by omega
          rw [this]
          exact h
        obtain ⟨b, hb⟩ := ih (t0 + 1) h2
        refine ⟨b, ?_⟩
        rw [WaitForCacheSync_step env (n + 1) t0 hs hc]
        exact hb

/-- C9, as stated, fails: with a store that never completes its initial sync
(and nobody closing the stop channel) `Start` returns nothing, however many
polls it is given: no error comes back within any deadline. -/
theorem Start_never_synced_does_not_return :
    ¬ ∃ fuel, (@Start Unit "kro.run/owned" neverSynced fuel).isSome = true := by
  rintro ⟨fuel, h⟩
  have hw := WaitForCacheSync_none neverSynced (fun _ => ⟨rfl, rfl⟩) fuel 0
  simp [Start, hw] at h

/-- C9, amended: `Start` sets no deadline of its own.  Whenever the wait for the
initial cache sync answers false (the stop channel was closed before the
store synced), `Start` returns the error `failed to sync CRD informer cache`
and the worker is not launched; with a store that never syncs this happens
once the stop channel is closed, and while neither signal occurs `Start` does
not return.  The worker is launched, once, and `Start` returns nil, only after
the sync signal has fired. -/
theorem Start_error_iff_wait_fails {σ : Type} (ownedLabel : String) (env : SyncEnv) :
    (∀ fuel e tr, @Start σ ownedLabel env fuel = some (some e, tr) →
      WaitForCacheSync env fuel 0 = some false ∧ workerStarts tr = 0) ∧
    (∀ fuel, WaitForCacheSync env fuel 0 = some false →
      ∃ tr, @Start σ ownedLabel env fuel
          = some (some "failed to sync CRD informer cache", tr) ∧ workerStarts tr = 0) ∧
    (∀ fuel tr, @Start σ ownedLabel env fuel = some (none, tr) →
      WaitForCacheSync env fuel 0 = some true ∧ workerStarts tr = 1 ∧
      ∃ t, env.hasSynced t = true) ∧
    (∀ t, (∀ u, env.hasSynced u = false) → env.stopClosed t = true →
      ∃ tr, @Start σ ownedLabel env (t + 1)
          = some (some "failed to sync CRD informer cache", tr) ∧ workerStarts tr = 0) ∧
    (∀ t, env.hasSynced t = true ∨ env.stopClosed t = true →
      (@Start σ ownedLabel env (t + 1)).isSome = true) ∧
    ((∀ t, env.hasSynced t = false ∧ env.stopClosed t = false) →
      ∀ fuel, @Start σ ownedLabel env fuel = none) := by
  refine ⟨?_, ?_, ?_, ?_, ?_, ?_⟩
  · intro fuel e tr h
    cases hw : WaitForCacheSync env fuel 0 with
    | none => simp [Start, hw] at h
    | some b =>
      cases b with
      | true => simp [Start, hw] at h
      | false =>
        simp only [Start, hw, Option.some.injEq, Prod.mk.injEq] at h
        refine ⟨rfl, ?_⟩
        rw [← h.2]
        simp [workerStarts]
  · intro fuel hw
    refine ⟨_, by simp only [Start, hw]; rfl, ?_⟩
    simp [workerStarts]
  · intro fuel tr h
    cases hw : WaitForCacheSync env fuel 0 with
    | none => simp [Start, hw] at h
    | some b =>
      cases b with
      | false => simp [Start, hw] at h
      | true =>
        simp only [Start, hw, Option.some.injEq, Prod.mk.injEq] at h
        refine ⟨rfl, ?_, WaitForCacheSync_true env fuel 0 hw⟩
        rw [← h.2]
        simp [workerStarts]
  · intro t hns hc
    obtain ⟨b, hb⟩ := WaitForCacheSync_returns env t 0 (Or.inr (by simpa using hc))
    cases b with
    | true =>
      obtain ⟨u, hu⟩ := WaitForCacheSync_true env (t + 1) 0 hb
      rw [hns u] at hu
      cases hu
    | false =>
      refine ⟨_, by simp only [Start, hb]; rfl, ?_⟩
      simp [workerStarts]
  · intro t h
    obtain ⟨b, hb⟩ := WaitForCacheSync_returns env t 0 (by simpa using h)
    cases b <;> simp [Start, hb]
  · intro hnever fuel
    simp [Start, WaitForCacheSync_none env hnever fuel 0]

/-- C9 amended, at a concrete input: the store never syncs and the stop channel
is closed before the third poll; `Start` returns the error and launches no
worker. -/
theorem Start_error_iff_wait_fails_witness :
    ∃ tr, @Start Unit "kro.run/owned" stoppedAtTwo 3
        = some (some "failed to sync CRD informer cache", tr) ∧ workerStarts tr = 0 :=
  (Start_error_iff_wait_fails "kro.run/owned" stoppedAtTwo).2.2.2.1 2 (fun _ => rfl)
    (by decide)

end Client
